import Mathlib

/-!
Verification of the order/payment core of the Tv-Led backend.

The definitions below are a shallow embedding of the TypeScript services:
`OrdersService` (src/src/orders/orders.service.ts), `CheckoutService`
(src/src/checkout/checkout.service.ts), `CartService`
(src/src/cart/cart.controller.ts, concatenated sources) and `KonnectService`
(src/unnamed/part_016).  Database state is passed explicitly as a `DB`
value; Prisma writes become pure functions on `DB`; a thrown Nest
exception becomes an `Except Err` error; the interactive
`prisma.$transaction` becomes a wrapper that discards the intermediate
state when the body errors (rollback).  JavaScript numbers used for
prices, stocks and quantities are modelled as `Int`.
-/

namespace TvLed

/-- JavaScript truthiness of an optional string: `null`/`undefined` and the
empty string are falsy, every other string is truthy. -/
def jsTruthy : Option String → Bool
  | none => false
  | some s => !(s == "")

/-- JavaScript `a || b` on optional strings: returns `a` when it is truthy,
otherwise `b`. -/
def jsOr (a b : Option String) : Option String :=
  if jsTruthy a then a else b

/-- Order statuses from the Prisma `OrderStatus` enum. -/
inductive OrderStatus
  | PENDING
  | CONFIRMED
  | SHIPPED
  | DELIVERED
  | CANCELLED
  deriving DecidableEq, Repr

/-- Payment statuses from the Prisma `PaymentStatus` enum. -/
inductive PaymentStatus
  | PENDING
  | SUCCESS
  | FAILED
  deriving DecidableEq, Repr

/-- Payment methods from the Prisma `PaymentMethod` enum. -/
inductive PaymentMethod
  | CASH_ON_DELIVERY
  | CREDIT_DEBIT_CARD
  | PAYKASSMA
  | MOBILE_PAYMENT
  deriving DecidableEq, Repr

/-- Errors thrown by the services: `badRequest` is Nest's
`BadRequestException`, `notFound` is `NotFoundException`, and
`uniqueViolation` is the Prisma P2002 unique-constraint error raised by an
insert that collides on a unique column. -/
inductive Err
  | badRequest (msg : String)
  | notFound (msg : String)
  | uniqueViolation (field : String)
  deriving DecidableEq, Repr

/-- A row of the `Product` table (the fields the order core reads). -/
structure Product where
  id : String
  title : String
  price : Int
  stock : Int
  deriving DecidableEq, Repr

/-- One entry of the JSON `items` blob stored on a `Cart` row. -/
structure CartItem where
  productId : String
  quantity : Int
  deriving DecidableEq, Repr

/-- A row of the `Cart` table: owned by a user or by a guest session. -/
structure Cart where
  id : String
  userId : Option String
  sessionId : Option String
  items : List CartItem
  deriving DecidableEq, Repr

/-- A row of the `OrderItem` table: the price/quantity snapshot taken at
order-creation time. -/
structure OrderItem where
  productId : String
  quantity : Int
  unitPrice : Int
  totalPrice : Int
  deriving DecidableEq, Repr

/-- A billing or shipping address block on an order. -/
structure Address where
  streetAddress : String
  city : String
  postalCode : String
  deriving DecidableEq, Repr

/-- A row of the `Order` table. -/
structure Order where
  id : String
  orderNumber : String
  userId : Option String
  sessionId : Option String
  status : OrderStatus
  paymentMethod : PaymentMethod
  totalAmount : Int
  fullName : String
  cin : Option String
  dateOfBirth : Option String
  email : String
  phoneNumber : String
  billingAddress : Address
  shippingAddress : Address
  orderItems : List OrderItem
  deriving DecidableEq, Repr

/-- The nested `payment` object a Konnect callback payload may carry. -/
structure PaymentField where
  orderId : Option String
  orderNumber : Option String
  status : Option String
  id : Option String
  deriving DecidableEq, Repr

/-- The fields of a Konnect callback payload that
`KonnectService.verifyCallback` reads. -/
structure CallbackPayload where
  orderId : Option String
  orderNumber : Option String
  status : Option String
  paymentStatus : Option String
  state : Option String
  paymentRef : Option String
  id : Option String
  paymentId : Option String
  payment : Option PaymentField
  deriving DecidableEq, Repr

/-- A row of the `Payment` table (1:1 with an order via `orderId`). -/
structure Payment where
  orderId : String
  paymentMethod : PaymentMethod
  status : PaymentStatus
  amount : Int
  gatewayTransactionId : Option String
  paymentUrl : Option String
  paidAt : Option Nat
  gatewayResponse : Option CallbackPayload
  deriving DecidableEq, Repr

/-- The whole database state the order/payment core touches. -/
structure DB where
  products : List Product
  carts : List Cart
  orders : List Order
  payments : List Payment
  deriving DecidableEq, Repr

/-- `prisma.product.findUnique({ where: { id } })`. -/
def findProduct (db : DB) (pid : String) : Option Product :=
  db.products.find? (fun p => p.id == pid)

/-- `prisma.order.findUnique({ where: { id } })`. -/
def findOrderById (db : DB) (oid : String) : Option Order :=
  db.orders.find? (fun o => o.id == oid)

/-- `prisma.order.findUnique({ where: { orderNumber } })`. -/
def findOrderByNumber (db : DB) (n : String) : Option Order :=
  db.orders.find? (fun o => o.orderNumber == n)

/-- `prisma.payment.findUnique({ where: { orderId } })` (the `payment`
relation included on an order). -/
def findPaymentFor (db : DB) (oid : String) : Option Payment :=
  db.payments.find? (fun p => p.orderId == oid)

end TvLed

namespace TvLed

/-! ### KonnectService.verifyWebhookSignature (src/unnamed/part_016) -/

/-- Value of a hexadecimal digit, or `none` for a non-hex character. -/
def hexDigit? (c : Char) : Option Nat :=
  if '0' ≤ c ∧ c ≤ '9' then some (c.toNat - '0'.toNat)
  else if 'a' ≤ c ∧ c ≤ 'f' then some (c.toNat - 'a'.toNat + 10)
  else if 'A' ≤ c ∧ c ≤ 'F' then some (c.toNat - 'A'.toNat + 10)
  else none

/-- Node's `Buffer.from(s, 'hex')`: decodes pairs of hex digits into bytes
and stops at the first pair that is not valid hex (or at an odd trailing
character). -/
def hexToBytes : List Char → List Nat
  | c1 :: c2 :: rest =>
    match hexDigit? c1, hexDigit? c2 with
    | some h, some l => (16 * h + l) :: hexToBytes rest
    | _, _ => []
  | _ => []

/-- `KonnectService.verifyWebhookSignature`.  `hmacHex secret payload` stands
for `crypto.createHmac('sha256', secret).update(payload).digest('hex')` and is
passed in as an abstract function; `payloadJson` is the
`JSON.stringify(callbackData ?? \x7b\x7d)` serialization of the payload.
When the configured `KONNECT_WEBHOOK_SECRET` is empty the check is bypassed
and the function returns `true`; otherwise a missing (or empty) signature is
rejected, the `sha256=` tag is stripped, both hex strings are decoded to
bytes and compared (`crypto.timingSafeEqual` after an explicit length
check). -/
def verifyWebhookSignature (hmacHex : String → String → String)
    (webhookSecret : String) (payloadJson : String)
    (signature : Option String) : Bool :=
  if webhookSecret == "" then
    true
  else if !(jsTruthy signature) then
    false
  else
    let sig := signature.getD ""
    let expected := hmacHex webhookSecret payloadJson
    let received := if sig.startsWith "sha256=" then sig.drop 7 else sig
    let expectedBuf := hexToBytes expected.toList
    let receivedBuf := hexToBytes received.toList
    if expectedBuf.length != receivedBuf.length then false
    else expectedBuf == receivedBuf

/-! ### OrdersService.getOrder (src/src/orders/orders.service.ts, 451-481) -/

/-- Ownership test of `getOrder`: JavaScript
`(userId && order.userId === userId) || (sessionId && order.sessionId === sessionId)`. -/
def isOwner (o : Order) (userId sessionId : Option String) : Bool :=
  (jsTruthy userId && o.userId == userId) ||
  (jsTruthy sessionId && o.sessionId == sessionId)

/-- `OrdersService.getOrder`: looks the order up by id and reports the same
not-found error both when the row is absent and when it is owned by someone
else. -/
def getOrder (db : DB) (orderId : String) (userId sessionId : Option String) :
    Except Err Order :=
  match findOrderById db orderId with
  | none => .error (.notFound ("Order with ID " ++ orderId ++ " not found"))
  | some o =>
    if isOwner o userId sessionId then .ok o
    else .error (.notFound ("Order with ID " ++ orderId ++ " not found"))

/-- `OrdersService.updateOrderStatus` (admin): sets the given status on the
order without any transition check. -/
def updateOrderStatus (db : DB) (orderId : String) (status : OrderStatus) :
    Except Err (Order × DB) :=
  match findOrderById db orderId with
  | none => .error (.notFound ("Order with ID " ++ orderId ++ " not found"))
  | some o =>
    .ok ({ o with status := status },
      { db with orders :=
          db.orders.map (fun e => if e.id == orderId then { e with status := status } else e) })

end TvLed

namespace TvLed

/-! ### CartService (src/src/cart/cart.controller.ts, concatenated sources) -/

/-- The identifier a cart operation acts for: a user id or a guest session
id (`CartIdentifier`). -/
structure CartIdentifier where
  userId : Option String
  sessionId : Option String
  deriving DecidableEq, Repr

/-- `CartService.findCart`: looks the cart up by user id when one is given,
else by session id, else yields nothing. -/
def findCart (db : DB) (ident : CartIdentifier) : Option Cart :=
  if jsTruthy ident.userId then
    db.carts.find? (fun c => c.userId == ident.userId)
  else if jsTruthy ident.sessionId then
    db.carts.find? (fun c => c.sessionId == ident.sessionId)
  else none

/-- One entry of `itemsWithProducts`: a cart line enriched with the live
product, `none` when the product has been deleted. -/
structure ItemWithProduct where
  productId : String
  quantity : Int
  product : Option Product
  deriving DecidableEq, Repr

/-- The `CartWithProducts` view returned by `CartService.getCart`. -/
structure CartView where
  id : String
  userId : Option String
  sessionId : Option String
  items : List CartItem
  itemsWithProducts : List ItemWithProduct
  deriving DecidableEq, Repr

/-- `CartService.getCart`: returns an empty view when the cart is missing or
empty, otherwise enriches each line item with the product looked up by id
(deleted products become `none` rather than being dropped). -/
def getCart (db : DB) (ident : CartIdentifier) : CartView :=
  match findCart db ident with
  | none => CartView.mk "" ident.userId ident.sessionId [] []
  | some cart =>
    if cart.items.isEmpty then
      CartView.mk cart.id cart.userId cart.sessionId [] []
    else
      CartView.mk cart.id cart.userId cart.sessionId cart.items
        (cart.items.map (fun it =>
          ItemWithProduct.mk it.productId it.quantity (findProduct db it.productId)))

/-- `CartService.getOrCreateUserCart`: returns the user's cart, creating an
empty one (with the fresh row id `newCartId`) when none exists. -/
def getOrCreateUserCart (newCartId : String) (userId : String) (db : DB) :
    Cart × DB :=
  match db.carts.find? (fun c => c.userId == some userId) with
  | some c => (c, db)
  | none =>
    let c : Cart := Cart.mk newCartId (some userId) none []
    (c, { db with carts := db.carts ++ [c] })

/-- `prisma.cart.delete({ where: { sessionId } })` (failure to find the row
is ignored by the caller). -/
def deleteCartBySession (db : DB) (sid : String) : DB :=
  { db with carts := db.carts.filter (fun c => !(c.sessionId == some sid)) }

/-- `prisma.cart.update({ where: { id }, data: { items } })`. -/
def updateCartItemsById (db : DB) (cid : String) (items : List CartItem) : DB :=
  { db with carts :=
      db.carts.map (fun c => if c.id == cid then { c with items := items } else c) }

/-- `Map.set` of the merge in `migrateGuestCartToUser`: overwrites the entry
with the same `productId` in place, otherwise appends. -/
def setItem : List CartItem → CartItem → List CartItem
  | [], it => [it]
  | e :: rest, it =>
    if e.productId == it.productId then it :: rest else e :: setItem rest it

/-- Merging one guest line into the map: an existing entry for the same
product has the guest quantity added, otherwise the guest line is
appended. -/
def addGuestItem : List CartItem → CartItem → List CartItem
  | [], g => [g]
  | e :: rest, g =>
    if e.productId == g.productId then
      { e with quantity := e.quantity + g.quantity } :: rest
    else e :: addGuestItem rest g

/-- The merge of `migrateGuestCartToUser`: user items are loaded into the
map first, then guest items are merged in, combining quantities for
identical products. -/
def mergeCartItems (userItems guestItems : List CartItem) : List CartItem :=
  guestItems.foldl addGuestItem (userItems.foldl setItem [])

/-- `CartService.migrateGuestCartToUser`: no-op (up to creating the user's
cart) when no guest cart exists; when the guest cart is empty it is deleted
and the user's cart returned; otherwise quantities are merged into the
user's cart and the guest cart is deleted.  `newCartId` is the row id used
if a user cart has to be created. -/
def migrateGuestCartToUser (newCartId : String) (guestSessionId userId : String)
    (db : DB) : Cart × DB :=
  let guestCart? := db.carts.find? (fun c => c.sessionId == some guestSessionId)
  let userCart? := db.carts.find? (fun c => c.userId == some userId)
  match guestCart? with
  | none => getOrCreateUserCart newCartId userId db
  | some guestCart =>
    if guestCart.items.isEmpty then
      let db1 := deleteCartBySession db guestSessionId
      match userCart? with
      | some c => (c, db1)
      | none => getOrCreateUserCart newCartId userId db1
    else
      let (finalUserCart, db1) :=
        match userCart? with
        | some c => (c, db)
        | none => getOrCreateUserCart newCartId userId db
      let mergedItems := mergeCartItems finalUserCart.items guestCart.items
      let updatedCart := { finalUserCart with items := mergedItems }
      let db2 := updateCartItemsById db1 finalUserCart.id mergedItems
      (updatedCart, deleteCartBySession db2 guestSessionId)

/-- Quantity of a product in a list of cart lines: the quantity of the first
line for that product, `0` when absent. -/
def cartQty (items : List CartItem) (pid : String) : Int :=
  match items.find? (fun it => it.productId == pid) with
  | some it => it.quantity
  | none => 0

/-- Items of the user's cart in a database state, `[]` when the user has no
cart. -/
def userCartItems (db : DB) (userId : String) : List CartItem :=
  match db.carts.find? (fun c => c.userId == some userId) with
  | some c => c.items
  | none => []

/-- The product ids of a list of cart lines are pairwise distinct. -/
def keysNodup (items : List CartItem) : Prop :=
  (items.map (fun it => it.productId)).Nodup

/-! ### OrdersService.createOrder (src/src/orders/orders.service.ts, 284-446) -/

/-- The `CreateOrderDto` payload of `createOrder`, together with the owner
identity merged in by the checkout controller. -/
structure CreateOrderDto where
  userId : Option String
  sessionId : Option String
  paymentMethod : PaymentMethod
  fullName : String
  cin : Option String
  dateOfBirth : Option String
  email : String
  phoneNumber : String
  billingAddress : Address
  shippingAddress : Address
  deriving DecidableEq, Repr

/-- The `cartIdentifier` computed at the top of `createOrder`: the user id
when truthy, else the session id when truthy, else nothing. -/
def dtoIdentifier (dto : CreateOrderDto) : Option CartIdentifier :=
  if jsTruthy dto.userId then some (CartIdentifier.mk dto.userId none)
  else if jsTruthy dto.sessionId then some (CartIdentifier.mk none dto.sessionId)
  else none

/-- One entry of the `productUpdates` array accumulated in step 1 of the
transaction: the stock and price read for a cart line. -/
structure ProductUpdate where
  productId : String
  quantity : Int
  currentStock : Int
  price : Int
  deriving DecidableEq, Repr

/-- Step 1 of the transaction: for each cart line look the product up,
fail when it is missing or its stock is below the requested quantity, and
record the read stock and price. -/
def collectProductUpdates (db : DB) :
    List CartItem → Except Err (List ProductUpdate)
  | [] => .ok []
  | item :: rest =>
    match findProduct db item.productId with
    | none =>
      .error (.notFound ("Product with ID " ++ item.productId ++ " not found"))
    | some product =>
      if product.stock < item.quantity then
        .error (.badRequest ("Insufficient stock for product " ++ product.title ++
          ". Available: " ++ toString product.stock ++
          ", Requested: " ++ toString item.quantity))
      else
        match collectProductUpdates db rest with
        | .error e => .error e
        | .ok updates =>
          .ok (ProductUpdate.mk product.id item.quantity product.stock
            product.price :: updates)

/-- Step 2 of the transaction: `totalAmount`, a `reduce` summing
`price * quantity` starting from `0`. -/
def totalOf (productUpdates : List ProductUpdate) : Int :=
  productUpdates.foldl (fun sum item => sum + item.price * item.quantity) 0

/-- The `where` clause of the conditional stock write:
`id = productId AND stock >= quantity`. -/
def stockCondition (pid : String) (q : Int) (p : Product) : Bool :=
  p.id == pid && decide (q ≤ p.stock)

/-- Step 3's `prisma.product.updateMany`: decrements the stock of every row
matching the condition and reports how many rows were affected. -/
def updateManyStockDecrement (db : DB) (pid : String) (q : Int) : DB × Nat :=
  (( { db with products := db.products.map (fun p =>
        if stockCondition pid q p then { p with stock := p.stock - q } else p) } ),
   (db.products.filter (stockCondition pid q)).length)

/-- Step 3 of the transaction: apply the conditional decrement for each
item in turn; a write affecting zero rows throws, rolling the transaction
back. -/
def applyStockDecrements (db : DB) :
    List ProductUpdate → Except Err DB
  | [] => .ok db
  | item :: rest =>
    let r := updateManyStockDecrement db item.productId item.quantity
    if r.2 == 0 then
      .error (.badRequest ("Stock insufficient for product " ++ item.productId ++
        ". Another purchase may have occurred."))
    else applyStockDecrements r.1 rest

/-- One `OrderItem` row created in step 4: the snapshot of the price read in
step 1 and the line total `unitPrice * quantity`. -/
def mkOrderItem (item : ProductUpdate) : OrderItem :=
  OrderItem.mk item.productId item.quantity item.price
    (item.price * item.quantity)

/-- The `Order` row created in step 4. -/
def mkOrder (newOrderId orderNumber : String) (dto : CreateOrderDto)
    (totalAmount : Int) (productUpdates : List ProductUpdate) : Order :=
  Order.mk newOrderId orderNumber
    (if jsTruthy dto.userId then dto.userId else none)
    (if jsTruthy dto.sessionId then dto.sessionId else none)
    OrderStatus.PENDING dto.paymentMethod totalAmount dto.fullName dto.cin
    dto.dateOfBirth dto.email dto.phoneNumber dto.billingAddress
    dto.shippingAddress (productUpdates.map mkOrderItem)

/-- Step 4's `prisma.order.create`: inserting an order whose `orderNumber`
collides with an existing row raises the Prisma unique-constraint error. -/
def orderCreate (db : DB) (o : Order) : Except Err (Order × DB) :=
  if db.orders.any (fun e => e.orderNumber == o.orderNumber) then
    .error (.uniqueViolation "orderNumber")
  else .ok (o, { db with orders := db.orders ++ [o] })

/-- Step 5 of the transaction: `cart.updateMany` clearing the items of the
owner's cart (by user id for authenticated owners, else by session id). -/
def clearCartFor (dto : CreateOrderDto) (db : DB) : DB :=
  if jsTruthy dto.userId then
    { db with carts := db.carts.map (fun c =>
        if c.userId == dto.userId then { c with items := [] } else c) }
  else if jsTruthy dto.sessionId then
    { db with carts := db.carts.map (fun c =>
        if c.sessionId == dto.sessionId then { c with items := [] } else c) }
  else db

/-- The body of the `prisma.$transaction` callback in `createOrder`.
`gen` is the stream of values `generateOrderNumber` would return; the body
calls it exactly once (`gen 0`); `newOrderId` is the generated row id. -/
def createOrderTx (gen : Nat → String) (newOrderId : String)
    (dto : CreateOrderDto) (validCartItems : List CartItem) (db : DB) :
    Except Err (Order × DB) :=
  match collectProductUpdates db validCartItems with
  | .error e => .error e
  | .ok productUpdates =>
    match applyStockDecrements db productUpdates with
    | .error e => .error e
    | .ok db1 =>
      match orderCreate db1
          (mkOrder newOrderId (gen 0) dto (totalOf productUpdates)
            productUpdates) with
      | .error e => .error e
      | .ok (o, db2) => .ok (o, clearCartFor dto db2)

/-- The `validCartItems` of `createOrder`: lines whose product still exists,
reduced back to `(productId, quantity)` pairs. -/
def validItemsOf (view : CartView) : List CartItem :=
  (view.itemsWithProducts.filter (fun it => it.product.isSome)).map
    (fun it => CartItem.mk it.productId it.quantity)

/-- `OrdersService.createOrder`: resolve the owner's cart, reject an empty
cart or one holding only deleted products, then run the transaction; when
the transaction body throws, the database rolls back to its initial state
and the error is surfaced. -/
def createOrder (gen : Nat → String) (newOrderId : String)
    (dto : CreateOrderDto) (db : DB) : Except Err Order × DB :=
  match dtoIdentifier dto with
  | none => (.error (.badRequest "Either userId or sessionId must be provided"), db)
  | some ident =>
    let cart := getCart db ident
    if cart.itemsWithProducts.isEmpty then
      (.error (.badRequest "Cart is empty"), db)
    else
      let validCartItems := validItemsOf cart
      if validCartItems.isEmpty then
        (.error (.badRequest "Cart contains only deleted products"), db)
      else
        match createOrderTx gen newOrderId dto validCartItems db with
        | .error e => (.error e, db)
        | .ok (o, db1) => (.ok o, db1)

/-- Sequential interleaving of `m` single-unit conditional stock decrements
against one product, as issued by `m` racing `createOrder` calls whose
writes the database serializes; returns the final state and the number of
writes that succeeded. -/
def decrementRace (pid : String) (db : DB) : Nat → DB × Nat
  | 0 => (db, 0)
  | Nat.succ m =>
    let r := decrementRace pid db m
    let r2 := updateManyStockDecrement r.1 pid 1
    (r2.1, r.2 + r2.2)

/-- The product ids of a database are pairwise distinct (the `id` column is
the primary key). -/
def productIdsNodup (db : DB) : Prop :=
  (db.products.map (fun p => p.id)).Nodup

/-! ### ProductsService.update (src/src/products/products.service.ts) -/

/-- The optional columns of `UpdateProductDto` that matter to the order
core; the service's remaining scalar columns are written to the same
`product` row in exactly the same conditional-spread way. -/
structure UpdateProductDto where
  title : Option String
  price : Option Int
  stock : Option Int
  deriving DecidableEq, Repr

/-- Application of the defined fields of an `UpdateProductDto` to a product
row (the conditional spreads of `ProductsService.update`). -/
def applyProductUpdate (dto : UpdateProductDto) (p : Product) : Product :=
  let p1 := match dto.title with | some t => { p with title := t } | none => p
  let p2 := match dto.price with | some v => { p1 with price := v } | none => p1
  match dto.stock with | some v => { p2 with stock := v } | none => p2

/-- `ProductsService.update`: fails when the product does not exist,
otherwise writes the provided columns to the `product` row. -/
def updateProduct (db : DB) (pid : String) (dto : UpdateProductDto) :
    Except Err (Product × DB) :=
  match findProduct db pid with
  | none => .error (.notFound ("Product with ID " ++ pid ++ " not found"))
  | some p =>
    .ok (applyProductUpdate dto p,
      { db with products := db.products.map (fun e =>
          if e.id == pid then applyProductUpdate dto e else e) })

/-! ### CheckoutService (src/src/checkout/checkout.service.ts) -/

/-- The result of a gateway `verifyCallback`. -/
structure VerificationResult where
  success : Bool
  orderId : Option String
  transactionId : Option String
  status : Option String
  deriving DecidableEq, Repr

/-- JavaScript optional chaining `callbackData?.payment?.f`. -/
def paymentField (cb : CallbackPayload) (f : PaymentField → Option String) :
    Option String :=
  match cb.payment with
  | none => none
  | some p => f p

/-- ASCII lowering of one character, the behavior of JavaScript
`String.prototype.toLowerCase` on the ASCII gateway status tokens the
handler compares against. -/
def charToLower (c : Char) : Char :=
  if 'A' ≤ c ∧ c ≤ 'Z' then Char.ofNat (c.toNat + 32) else c

/-- `String(statusRaw).toLowerCase()` on ASCII status strings. -/
def jsToLowerCase (s : String) : String :=
  String.mk (s.data.map charToLower)

/-- `KonnectService.verifyCallback`: normalizes the varying Konnect payload
shapes; fails without a truthy order reference, otherwise reports the
reference, the optional transaction id, and the lowercased raw status
(`unknown` when absent). -/
def konnectVerifyCallback (cb : CallbackPayload) : VerificationResult :=
  let orderId := jsOr cb.orderId (jsOr cb.orderNumber
    (jsOr (paymentField cb (fun p => p.orderId))
      (paymentField cb (fun p => p.orderNumber))))
  let statusRaw := jsOr cb.status (jsOr cb.paymentStatus
    (jsOr (paymentField cb (fun p => p.status)) cb.state))
  let transactionId := jsOr cb.paymentRef (jsOr cb.id
    (jsOr cb.paymentId (paymentField cb (fun p => p.id))))
  if !(jsTruthy orderId) then VerificationResult.mk false none none none
  else
    VerificationResult.mk true orderId
      (if jsTruthy transactionId then transactionId else none)
      (some (if jsTruthy statusRaw then jsToLowerCase (statusRaw.getD "")
        else "unknown"))

/-- The status mapping of `handlePaymentCallback`: `success`, `paid`,
`completed` and `approved` become SUCCESS, everything else FAILED. -/
def mapCallbackStatus (s : Option String) : PaymentStatus :=
  if s == some "success" || s == some "paid" || s == some "completed" ||
      s == some "approved"
  then PaymentStatus.SUCCESS else PaymentStatus.FAILED

/-- `prisma.payment.update({ where: { orderId } })`. -/
def updatePaymentRow (db : DB) (oid : String) (f : Payment → Payment) : DB :=
  { db with payments :=
      db.payments.map (fun p => if p.orderId == oid then f p else p) }

/-- `prisma.order.update({ where: { id } })`. -/
def updateOrderRow (db : DB) (oid : String) (f : Order → Order) : DB :=
  { db with orders :=
      db.orders.map (fun o => if o.id == oid then f o else o) }

/-- The value `handlePaymentCallback` resolves with. -/
structure CallbackResult where
  success : Bool
  orderId : Option String
  deriving DecidableEq, Repr

/-- `CheckoutService.handlePaymentCallback` on the Konnect path: verify the
payload, resolve the order by order number together with its payment row,
write the mapped status (with the raw payload and, on SUCCESS, a fresh
`paidAt := now`) to the payment, and on SUCCESS set the order CONFIRMED.
The two writes are separate awaits with no surrounding transaction;
`orderUpdateFault` models the second write throwing (an I/O failure), which
the surrounding try/catch turns into a `success := false` result while the
payment write stays committed. -/
def handlePaymentCallback (now : Nat) (orderUpdateFault : Bool)
    (gatewayData : CallbackPayload) (db : DB) : CallbackResult × DB :=
  let vr := konnectVerifyCallback gatewayData
  if !vr.success || !(jsTruthy vr.orderId) then (CallbackResult.mk false none, db)
  else
    match findOrderByNumber db (vr.orderId.getD "") with
    | none => (CallbackResult.mk false none, db)
    | some order =>
      match findPaymentFor db order.id with
      | none => (CallbackResult.mk false none, db)
      | some _ =>
        let paymentStatus := mapCallbackStatus vr.status
        let db1 := updatePaymentRow db order.id (fun p =>
          { p with status := paymentStatus,
                   gatewayResponse := some gatewayData,
                   paidAt := if paymentStatus == PaymentStatus.SUCCESS
                     then some now else none })
        if paymentStatus == PaymentStatus.SUCCESS then
          if orderUpdateFault then (CallbackResult.mk false none, db1)
          else (CallbackResult.mk true (some order.id),
            updateOrderRow db1 order.id
              (fun o => { o with status := OrderStatus.CONFIRMED }))
        else (CallbackResult.mk true (some order.id), db1)

/-- Total quantity of a product across a list of cart lines (duplicates
summed). -/
def sumQty (items : List CartItem) (pid : String) : Int :=
  ((items.filter (fun it => it.productId == pid)).map (fun it => it.quantity)).sum

end TvLed

namespace TvLed

/-! ### Concrete database states used by closed witnesses and
counterexamples -/

/-- A catalog with one product (five TVs in stock at price 100) and a cart
of user u1 holding two of them. -/
def exDb : DB :=
  DB.mk [Product.mk "p1" "TV" 100 5]
    [Cart.mk "c1" (some "u1") none [CartItem.mk "p1" 2]] [] []

/-- The checkout payload of user u1 used by the witnesses. -/
def exDto : CreateOrderDto :=
  CreateOrderDto.mk (some "u1") none PaymentMethod.CASH_ON_DELIVERY "Alice"
    none none "a@b.c" "123" (Address.mk "s" "c" "p") (Address.mk "s" "c" "p")

/-- The order `createOrder` builds from `exDb` and `exDto` with generated
reference ORD-1 and row id o1. -/
def exOrder : Order :=
  Order.mk "o1" "ORD-1" (some "u1") none OrderStatus.PENDING
    PaymentMethod.CASH_ON_DELIVERY 200 "Alice" none none "a@b.c" "123"
    (Address.mk "s" "c" "p") (Address.mk "s" "c" "p")
    [OrderItem.mk "p1" 2 100 200]

/-- The database state after that `createOrder` call: stock decremented,
cart cleared, order inserted. -/
def exDbAfter : DB :=
  DB.mk [Product.mk "p1" "TV" 100 3]
    [Cart.mk "c1" (some "u1") none []] [exOrder] []

/-- An order already CONFIRMED whose payment has settled. -/
def c2order : Order :=
  Order.mk "o1" "ORD-1" (some "u1") none OrderStatus.CONFIRMED
    PaymentMethod.MOBILE_PAYMENT 200 "Alice" none none "a@b.c" "123"
    (Address.mk "s" "c" "p") (Address.mk "s" "c" "p") []

/-- A payment already in SUCCESS, settled at time 100. -/
def c2payment : Payment :=
  Payment.mk "o1" PaymentMethod.MOBILE_PAYMENT PaymentStatus.SUCCESS 200
    none none (some 100) none

/-- A valid Konnect SUCCESS callback for order ORD-1. -/
def c2payload : CallbackPayload :=
  CallbackPayload.mk (some "ORD-1") none (some "completed") none none none
    none none none

/-- Database with the settled order/payment pair. -/
def c2db : DB := DB.mk [] [] [c2order] [c2payment]

/-- An order already CONFIRMED whose payment has settled (terminal-state
scenario). -/
def c3order : Order :=
  Order.mk "o1" "ORD-1" (some "u1") none OrderStatus.CONFIRMED
    PaymentMethod.MOBILE_PAYMENT 200 "Bob" none none "b@b.c" "456"
    (Address.mk "s" "c" "p") (Address.mk "s" "c" "p") []

/-- A payment already in the terminal SUCCESS state. -/
def c3payment : Payment :=
  Payment.mk "o1" PaymentMethod.MOBILE_PAYMENT PaymentStatus.SUCCESS 200
    none none (some 100) none

/-- A later Konnect callback reporting a failed status for the same
order. -/
def c3payload : CallbackPayload :=
  CallbackPayload.mk (some "ORD-1") none (some "failed") none none none
    none none none

/-- Database with the settled order/payment pair for the terminal-state
scenario. -/
def c3db : DB := DB.mk [] [] [c3order] [c3payment]

/-- A pending order awaiting its payment callback. -/
def c5order : Order :=
  Order.mk "o1" "ORD-1" (some "u1") none OrderStatus.PENDING
    PaymentMethod.MOBILE_PAYMENT 200 "Carol" none none "c@b.c" "789"
    (Address.mk "s" "c" "p") (Address.mk "s" "c" "p") []

/-- A pending payment. -/
def c5payment : Payment :=
  Payment.mk "o1" PaymentMethod.MOBILE_PAYMENT PaymentStatus.PENDING 200
    none none none none

/-- A valid Konnect SUCCESS callback for the pending order. -/
def c5payload : CallbackPayload :=
  CallbackPayload.mk (some "ORD-1") none (some "completed") none none none
    none none none

/-- Database with the pending order/payment pair. -/
def c5db : DB := DB.mk [] [] [c5order] [c5payment]

/-- A generator stream whose first draw collides with an existing order
reference and whose second draw is fresh. -/
def c9gen : Nat → String := fun n => if n == 0 then "ORD-5" else "ORD-6"

/-- Database holding an existing order with reference ORD-5, plus stock and
a cart for user u1. -/
def c9db : DB :=
  DB.mk [Product.mk "p1" "TV" 100 5]
    [Cart.mk "c1" (some "u1") none [CartItem.mk "p1" 1]]
    [Order.mk "oX" "ORD-5" (some "u9") none OrderStatus.PENDING
      PaymentMethod.CASH_ON_DELIVERY 7 "Bob" none none "e@b.c" "000"
      (Address.mk "s" "c" "p") (Address.mk "s" "c" "p") []] []

/-- Database whose only cart (user u1's) is empty. -/
def c6db : DB :=
  DB.mk [Product.mk "p1" "TV" 100 5] [Cart.mk "c1" (some "u1") none []] [] []

end TvLed

namespace TvLed

/-! ### Generic list helpers used by several proofs -/

/-- A `find?` over a list from which every element satisfying the predicate
was filtered out returns `none`. -/
theorem find?_filter_not {α : Type} (l : List α) (p : α → Bool) :
    (l.filter (fun x => !(p x))).find? p = none := by
  rw [List.find?_eq_none]
  intro x hx
  rcases List.mem_filter.mp hx with ⟨_, hpx⟩
  simp only [Bool.not_eq_true'] at hpx
  simp [hpx]

/-- Updating exactly the elements matched by a predicate, with a function
that preserves the predicate, commutes with `find?` for that predicate. -/
theorem find?_map_update {α : Type} (l : List α) (p : α → Bool) (f : α → α)
    (hf : ∀ a, p a = true → p (f a) = true) :
    (l.map (fun a => if p a then f a else a)).find? p = (l.find? p).map f := by
  induction l with
  | nil => rfl
  | cons a l ih =>
    by_cases ha : p a = true
    · simp [List.find?, ha, hf a ha]
    · rw [Bool.not_eq_true] at ha
      simp [List.find?, ha, ih]

end TvLed

namespace TvLed

/-! ### Lemmas about the cart merge -/

theorem cartQty_nil (pid : String) : cartQty [] pid = 0 := rfl

theorem cartQty_cons (e : CartItem) (l : List CartItem) (pid : String) :
    cartQty (e :: l) pid =
      if e.productId = pid then e.quantity else cartQty l pid := by
  by_cases h : e.productId = pid
  · simp [cartQty, List.find?, h]
  · have hb : (e.productId == pid) = false := by simp [h]
    simp [cartQty, List.find?, hb, h]

theorem cartQty_setItem (acc : List CartItem) (it : CartItem) (pid : String) :
    cartQty (setItem acc it) pid =
      if it.productId = pid then it.quantity else cartQty acc pid := by
  induction acc with
  | nil => simp [setItem, cartQty_cons, cartQty_nil]
  | cons e rest ih =>
    by_cases he : e.productId = it.productId
    · have hb : (e.productId == it.productId) = true := by simp [he]
      by_cases hp : it.productId = pid
      · have hep : e.productId = pid := he.trans hp
        simp [setItem, hb, cartQty_cons, hp, hep]
      · have hep : ¬ e.productId = pid := by rw [he]; exact hp
        simp [setItem, hb, cartQty_cons, hp, hep]
    · have hb : (e.productId == it.productId) = false := by simp [he]
      by_cases hp : it.productId = pid
      · have hep : ¬ e.productId = pid := by rw [hp] at he; exact he
        simp [setItem, hb, cartQty_cons, hp, hep, ih]
      · simp [setItem, hb, cartQty_cons, hp, ih]

theorem cartQty_addGuestItem (acc : List CartItem) (g : CartItem) (pid : String) :
    cartQty (addGuestItem acc g) pid =
      if g.productId = pid then cartQty acc pid + g.quantity
      else cartQty acc pid := by
  induction acc with
  | nil => simp [addGuestItem, cartQty_cons, cartQty_nil]
  | cons e rest ih =>
    by_cases he : e.productId = g.productId
    · have hb : (e.productId == g.productId) = true := by simp [he]
      by_cases hp : g.productId = pid
      · have hep : e.productId = pid := by rw [he]; exact hp
        simp [addGuestItem, hb, cartQty_cons, hp, hep]
      · have hep : ¬ e.productId = pid := by rw [he]; exact hp
        simp [addGuestItem, hb, cartQty_cons, hp, hep]
    · have hb : (e.productId == g.productId) = false := by simp [he]
      by_cases hp : g.productId = pid
      · have hep : ¬ e.productId = pid := by rw [hp] at he; exact he
        simp [addGuestItem, hb, cartQty_cons, hp, hep, ih]
      · by_cases hq : e.productId = pid
        · have hpg : ¬ pid = g.productId := fun h => hp h.symm
          simp [addGuestItem, hb, cartQty_cons, hp, hq, hpg, ih]
        · simp [addGuestItem, hb, cartQty_cons, hp, hq, ih]

/-- A fold of `setItem` over lines whose product ids avoid `pid` does not
change the quantity seen for `pid`. -/
theorem cartQty_foldl_setItem_not_mem (u : List CartItem) (acc : List CartItem)
    (pid : String) (h : ∀ it ∈ u, it.productId ≠ pid) :
    cartQty (u.foldl setItem acc) pid = cartQty acc pid := by
  induction u generalizing acc with
  | nil => rfl
  | cons x rest ih =>
    have hx : x.productId ≠ pid := h x (by simp)
    have hrest : ∀ it ∈ rest, it.productId ≠ pid := fun it hit => h it (by simp [hit])
    rw [List.foldl_cons, ih (setItem acc x) hrest, cartQty_setItem]
    simp [hx]

/-- Folding `setItem` over a list with pairwise-distinct product ids builds
a map whose quantities agree with first-occurrence lookup in the list, for
ids present in the list. -/
theorem cartQty_foldl_setItem (u : List CartItem) (acc : List CartItem)
    (pid : String) (hnd : keysNodup u) :
    cartQty (u.foldl setItem acc) pid =
      if u.any (fun it => it.productId == pid) then cartQty u pid
      else cartQty acc pid := by
  induction u generalizing acc with
  | nil => simp [cartQty_nil]
  | cons x rest ih =>
    have hnd' : keysNodup rest := by
      have := hnd
      simp only [keysNodup, List.map_cons, List.nodup_cons] at this
      exact this.2
    have hx_not : x.productId ∉ rest.map (fun it => it.productId) := by
      have := hnd
      simp only [keysNodup, List.map_cons, List.nodup_cons] at this
      exact this.1
    rw [List.foldl_cons, ih (setItem acc x) hnd']
    by_cases hany : rest.any (fun it => it.productId == pid) = true
    · -- pid occurs among the rest, so it differs from x's product id
      have hpid_mem : pid ∈ rest.map (fun it => it.productId) := by
        rcases List.any_eq_true.mp hany with ⟨it, hit, hb⟩
        have : it.productId = pid := by simpa using hb
        exact this ▸ List.mem_map_of_mem _ hit
      have hxp : x.productId ≠ pid := fun heq => hx_not (heq ▸ hpid_mem)
      have hxb : (x.productId == pid) = false := by simp [hxp]
      simp [hany, List.any_cons, hxb, cartQty_cons, hxp]
    · have hanyb : rest.any (fun it => it.productId == pid) = false := by
        simpa using hany
      by_cases hxp : x.productId = pid
      · have hxb : (x.productId == pid) = true := by simp [hxp]
        simp [hanyb, List.any_cons, hxb, cartQty_setItem, hxp, cartQty_cons]
      · have hxb : (x.productId == pid) = false := by simp [hxp]
        simp [hanyb, List.any_cons, hxb, cartQty_setItem, hxp, cartQty_cons]

/-- With no line for `pid`, first-occurrence lookup yields `0`. -/
theorem cartQty_eq_zero_of_not_any (l : List CartItem) (pid : String)
    (h : l.any (fun it => it.productId == pid) = false) :
    cartQty l pid = 0 := by
  induction l with
  | nil => rfl
  | cons x rest ih =>
    simp only [List.any_cons, Bool.or_eq_false_iff] at h
    have hxp : x.productId ≠ pid := by
      intro hx; rw [hx] at h; simp at h
    rw [cartQty_cons]
    simp [hxp, ih h.2]

/-- The user-items phase of the merge preserves quantities (for lists whose
product ids are pairwise distinct). -/
theorem cartQty_buildMap (u : List CartItem) (pid : String) (hnd : keysNodup u) :
    cartQty (u.foldl setItem []) pid = cartQty u pid := by
  rw [cartQty_foldl_setItem u [] pid hnd]
  by_cases hany : u.any (fun it => it.productId == pid) = true
  · simp [hany]
  · have h : u.any (fun it => it.productId == pid) = false := by simpa using hany
    simp [h, cartQty_nil, cartQty_eq_zero_of_not_any u pid h]

theorem sumQty_nil (pid : String) : sumQty [] pid = 0 := rfl

theorem sumQty_cons (x : CartItem) (l : List CartItem) (pid : String) :
    sumQty (x :: l) pid =
      if x.productId = pid then x.quantity + sumQty l pid else sumQty l pid := by
  by_cases h : x.productId = pid
  · simp [sumQty, List.filter, h]
  · have hb : (x.productId == pid) = false := by simp [h]
    simp [sumQty, List.filter, hb, h]

/-- Folding the guest lines into the map adds, for every product, the total
guest quantity for that product. -/
theorem cartQty_foldl_addGuestItem (g : List CartItem) (acc : List CartItem)
    (pid : String) :
    cartQty (g.foldl addGuestItem acc) pid = cartQty acc pid + sumQty g pid := by
  induction g generalizing acc with
  | nil => simp [sumQty_nil]
  | cons x rest ih =>
    rw [List.foldl_cons, ih (addGuestItem acc x), cartQty_addGuestItem,
      sumQty_cons]
    by_cases h : x.productId = pid
    · simp [h]; ring
    · simp [h]

/-- For a list with pairwise-distinct product ids, the summed quantity is
the first-occurrence quantity. -/
theorem sumQty_eq_cartQty (l : List CartItem) (pid : String) (hnd : keysNodup l) :
    sumQty l pid = cartQty l pid := by
  induction l with
  | nil => rfl
  | cons x rest ih =>
    have hnd' : keysNodup rest := by
      have := hnd
      simp only [keysNodup, List.map_cons, List.nodup_cons] at this
      exact this.2
    have hx_not : x.productId ∉ rest.map (fun it => it.productId) := by
      have := hnd
      simp only [keysNodup, List.map_cons, List.nodup_cons] at this
      exact this.1
    rw [sumQty_cons, cartQty_cons]
    by_cases h : x.productId = pid
    · have hrest : rest.any (fun it => it.productId == pid) = false := by
        rw [Bool.eq_false_iff]
        intro hany
        rcases List.any_eq_true.mp hany with ⟨it, hit, hb⟩
        have hit' : it.productId = pid := by simpa using hb
        exact hx_not (h ▸ hit' ▸ List.mem_map_of_mem _ hit)
      rw [cartQty_eq_zero_of_not_any rest pid hrest] at ih ⊢
      have : sumQty rest pid = 0 := by
        rw [ih hnd']
      simp [h, this]
    · simp [h, ih hnd']

/-- Quantities after the merge are the sums of the per-cart quantities. -/
theorem cartQty_mergeCartItems (u g : List CartItem) (pid : String)
    (hu : keysNodup u) (hg : keysNodup g) :
    cartQty (mergeCartItems u g) pid = cartQty u pid + cartQty g pid := by
  rw [mergeCartItems, cartQty_foldl_addGuestItem, cartQty_buildMap u pid hu,
    sumQty_eq_cartQty g pid hg]

/-- Filtering preserves the absence of a match. -/
theorem find?_filter_none {α : Type} (l : List α) (p q : α → Bool)
    (h : l.find? p = none) : (l.filter q).find? p = none := by
  rw [List.find?_eq_none] at h ⊢
  intro x hx
  exact h x (List.mem_filter.mp hx).1

/-- After `deleteCartBySession` no cart for that session is found. -/
theorem deleteCartBySession_find_none (db : DB) (sid : String) :
    (deleteCartBySession db sid).carts.find?
      (fun c => c.sessionId == some sid) = none :=
  find?_filter_not db.carts (fun c => c.sessionId == some sid)

/-- C8: `migrateGuestCartToUser` merges the guest cart into the user cart:
with no guest cart the user's cart contents are untouched; with a guest
cart, every product's resulting quantity is the sum of its user-cart and
guest-cart quantities (so products present in only one cart keep their
quantity, and merging into an empty or absent user cart yields exactly the
guest contents), and afterwards no cart for the guest session exists. -/
theorem migrateGuestCart_merge_correct (newCartId gsid uid : String) (db : DB) :
    (db.carts.find? (fun c => c.sessionId == some gsid) = none →
       (migrateGuestCartToUser newCartId gsid uid db).1.items =
         userCartItems db uid) ∧
    (∀ g, db.carts.find? (fun c => c.sessionId == some gsid) = some g →
       keysNodup (userCartItems db uid) → keysNodup g.items →
       (∀ pid,
          cartQty (migrateGuestCartToUser newCartId gsid uid db).1.items pid =
            cartQty (userCartItems db uid) pid + cartQty g.items pid) ∧
       (migrateGuestCartToUser newCartId gsid uid db).2.carts.find?
           (fun c => c.sessionId == some gsid) = none) := by
  constructor
  · intro hng
    simp only [migrateGuestCartToUser, hng]
    cases hu : db.carts.find? (fun c => c.userId == some uid) with
    | none => simp [getOrCreateUserCart, userCartItems, hu]
    | some c => simp [getOrCreateUserCart, userCartItems, hu]
  · intro g hg hnu hng2
    simp only [migrateGuestCartToUser, hg]
    by_cases hempty : g.items.isEmpty = true
    · have hgnil : g.items = [] := List.isEmpty_iff.mp hempty
      cases hu : db.carts.find? (fun c => c.userId == some uid) with
      | none =>
        have hu1 : (deleteCartBySession db gsid).carts.find?
            (fun c => c.userId == some uid) = none :=
          find?_filter_none _ _ _ hu
        constructor
        · intro pid
          simp [hempty, hu, getOrCreateUserCart, hu1, userCartItems,
            hgnil, cartQty_nil]
        · simp only [hempty, if_true, hu, getOrCreateUserCart, hu1]
          rw [List.find?_append]
          have h1 : (deleteCartBySession db gsid).carts.find?
              (fun c => c.sessionId == some gsid) = none :=
            find?_filter_not db.carts (fun c => c.sessionId == some gsid)
          simp [h1]
      | some c =>
        constructor
        · intro pid
          simp [hempty, hu, userCartItems, hgnil, cartQty_nil]
        · simp only [hempty, if_true, hu]
          exact deleteCartBySession_find_none db gsid
    · have hempty' : g.items.isEmpty = false := by simpa using hempty
      cases hu : db.carts.find? (fun c => c.userId == some uid) with
      | none =>
        constructor
        · intro pid
          have hnu' : keysNodup ([] : List CartItem) := List.nodup_nil
          simp only [hempty', Bool.false_eq_true, if_false, hu,
            getOrCreateUserCart, userCartItems]
          rw [cartQty_mergeCartItems _ _ _ hnu' hng2]
        · simp only [hempty', Bool.false_eq_true, if_false, hu]
          exact deleteCartBySession_find_none _ gsid
      | some c =>
        have hcitems : userCartItems db uid = c.items := by
          simp [userCartItems, hu]
        constructor
        · intro pid
          rw [hcitems] at hnu
          simp only [hempty', Bool.false_eq_true, if_false, hu]
          rw [cartQty_mergeCartItems _ _ _ hnu hng2, hcitems]
        · simp only [hempty', Bool.false_eq_true, if_false, hu]
          exact deleteCartBySession_find_none _ gsid

/-- Witness for C8: guest cart with two units of product A merged into a
user cart holding three units of A yields five units, and the guest cart is
gone. -/
theorem migrateGuestCart_merge_correct_witness :
    cartQty
        (migrateGuestCartToUser "new" "s1" "u1"
            (DB.mk []
              [Cart.mk "cu" (some "u1") none [CartItem.mk "A" 3],
               Cart.mk "cg" none (some "s1") [CartItem.mk "A" 2]]
              [] [])).1.items "A" = 3 + 2 ∧
    (migrateGuestCartToUser "new" "s1" "u1"
        (DB.mk []
          [Cart.mk "cu" (some "u1") none [CartItem.mk "A" 3],
           Cart.mk "cg" none (some "s1") [CartItem.mk "A" 2]]
          [] [])).2.carts.find? (fun c => c.sessionId == some "s1") = none := by
  have h := (migrateGuestCart_merge_correct "new" "s1" "u1"
      (DB.mk []
        [Cart.mk "cu" (some "u1") none [CartItem.mk "A" 3],
         Cart.mk "cg" none (some "s1") [CartItem.mk "A" 2]]
        [] [])).2
      (Cart.mk "cg" none (some "s1") [CartItem.mk "A" 2])
      (by rfl) (by simp [userCartItems, keysNodup, List.find?])
      (by simp [keysNodup])
  refine ⟨?_, h.2⟩
  have hq := h.1 "A"
  rw [hq]
  rfl

end TvLed

namespace TvLed

/-- C10: with an empty `KONNECT_WEBHOOK_SECRET`, `verifyWebhookSignature`
accepts every payload with any (even missing) signature, so every inbound
Konnect webhook is processed unauthenticated; with a non-empty secret a
missing signature is rejected, i.e. the check is only enforced then. -/
theorem webhook_signature_bypass_when_secret_empty :
    (∀ (hmacHex : String → String → String) (payloadJson : String)
        (signature : Option String),
        verifyWebhookSignature hmacHex "" payloadJson signature = true) ∧
    (∀ (hmacHex : String → String → String) (secret payloadJson : String),
        secret ≠ "" →
        verifyWebhookSignature hmacHex secret payloadJson none = false) := by
  constructor
  · intro hmacHex payloadJson signature
    simp [verifyWebhookSignature]
  · intro hmacHex secret payloadJson hs
    simp [verifyWebhookSignature, jsTruthy, hs]

/-- Witness for C10 at concrete inputs. -/
theorem webhook_signature_bypass_witness :
    verifyWebhookSignature (fun _ _ => "ab") "" "payload" none = true ∧
    verifyWebhookSignature (fun _ _ => "ab") "topsecret" "payload" none = false :=
  ⟨webhook_signature_bypass_when_secret_empty.1 _ _ _,
   webhook_signature_bypass_when_secret_empty.2 _ "topsecret" _ (by decide)⟩

/-- C7: when the order exists but neither the requesting user id nor the
requesting session id owns it, `getOrder` returns exactly the not-found
error, and that result is identical to the result on a database from which
the order has been removed. -/
theorem getOrder_ownership_isolation (db : DB) (orderId : String)
    (userId sessionId : Option String) (o : Order)
    (hfind : findOrderById db orderId = some o)
    (hown : isOwner o userId sessionId = false) :
    getOrder db orderId userId sessionId =
      .error (Err.notFound ("Order with ID " ++ orderId ++ " not found")) ∧
    getOrder { db with orders := db.orders.filter (fun x => !(x.id == orderId)) }
        orderId userId sessionId =
      getOrder db orderId userId sessionId := by
  have hremoved :
      findOrderById
        { db with orders := db.orders.filter (fun x => !(x.id == orderId)) }
        orderId = none := by
    simp only [findOrderById]
    exact find?_filter_not db.orders (fun x => x.id == orderId)
  constructor
  · simp [getOrder, hfind, hown]
  · simp [getOrder, hfind, hown, hremoved]

/-- Witness for C7: a concrete database with one order owned by user `u1`,
queried by user `u2` with no session. -/
theorem getOrder_ownership_isolation_witness :
    getOrder
        (DB.mk [] []
          [Order.mk "o1" "ORD-1" (some "u1") none OrderStatus.PENDING
            PaymentMethod.CASH_ON_DELIVERY 100 "Alice" none none "a@b.c" "123"
            (Address.mk "s" "c" "p") (Address.mk "s" "c" "p") []]
          [])
        "o1" (some "u2") none =
      .error (Err.notFound ("Order with ID " ++ "o1" ++ " not found")) :=
  (getOrder_ownership_isolation _ "o1" (some "u2") none _ (by rfl) (by rfl)).1

end TvLed

namespace TvLed

/-! ### Lemmas about the conditional stock decrement -/

/-- The conditional decrement never changes the set of product ids. -/
theorem updateMany_preserves_ids (db : DB) (pid : String) (q : Int) :
    (updateManyStockDecrement db pid q).1.products.map (fun p => p.id) =
      db.products.map (fun p => p.id) := by
  simp only [updateManyStockDecrement, List.map_map]
  apply List.map_congr_left
  intro a _
  by_cases h : stockCondition pid q a = true
  · simp [h]
  · have hf : stockCondition pid q a = false := by simpa using h
    simp [hf]

/-- Row count of the conditional decrement: with pairwise-distinct product
ids, one row is affected exactly when the found product still holds enough
stock, otherwise none. -/
theorem updateMany_count (l : List Product) (pid : String) (q : Int)
    (p : Product) (hnd : (l.map (fun x => x.id)).Nodup)
    (hf : l.find? (fun x => x.id == pid) = some p) :
    (l.filter (stockCondition pid q)).length =
      if q ≤ p.stock then 1 else 0 := by
  induction l with
  | nil => simp [List.find?] at hf
  | cons x rest ih =>
    simp only [List.map_cons, List.nodup_cons] at hnd
    by_cases hb : (x.id == pid) = true
    · have hxp : x.id = pid := by simpa using hb
      have hpx : p = x := by
        rw [List.find?_cons_of_pos rest hb] at hf
        exact (Option.some.injEq _ _ ▸ hf).symm
      have hrest : rest.filter (stockCondition pid q) = [] := by
        rw [List.filter_eq_nil_iff]
        intro a ha
        have haid : a.id ≠ pid := by
          intro he
          exact hnd.1 (hxp ▸ he ▸ List.mem_map_of_mem _ ha)
        simp [stockCondition, haid]
      rw [List.filter_cons, hrest]
      subst hpx
      by_cases hq : q ≤ p.stock
      · simp [stockCondition, hb, hq]
      · simp [stockCondition, hb, hq]
    · have hbf : (x.id == pid) = false := by simpa using hb
      rw [List.find?_cons_of_neg rest (by simp [hbf])] at hf
      have hcond : stockCondition pid q x = false := by
        simp [stockCondition, hbf]
      rw [List.filter_cons, hcond]
      simpa using ih hnd.2 hf

/-- Effect of the conditional decrement on the targeted product: with
enough stock the row's stock drops by exactly the requested quantity,
otherwise the row is untouched. -/
theorem updateMany_find (l : List Product) (pid : String) (q : Int)
    (p : Product) (hnd : (l.map (fun x => x.id)).Nodup)
    (hf : l.find? (fun x => x.id == pid) = some p) :
    (l.map (fun x => if stockCondition pid q x
        then { x with stock := x.stock - q } else x)).find?
        (fun x => x.id == pid) =
      some (if q ≤ p.stock then { p with stock := p.stock - q } else p) := by
  induction l with
  | nil => simp [List.find?] at hf
  | cons x rest ih =>
    simp only [List.map_cons, List.nodup_cons] at hnd
    by_cases hb : (x.id == pid) = true
    · have hpx : p = x := by
        rw [List.find?_cons_of_pos rest hb] at hf
        exact (Option.some.injEq _ _ ▸ hf).symm
      subst hpx
      by_cases hq : q ≤ p.stock
      · have hcond : stockCondition pid q p = true := by
          simp [stockCondition, hb, hq]
        simp only [List.map_cons, hcond, if_true]
        rw [List.find?_cons]
        simp [hb, hq]
      · have hcond : stockCondition pid q p = false := by
          simp [stockCondition, hb, hq]
        simp only [List.map_cons, hcond, Bool.false_eq_true, if_false]
        rw [List.find?_cons]
        simp [hb, hq]
    · have hbf : (x.id == pid) = false := by simpa using hb
      rw [List.find?_cons_of_neg rest (by simp [hbf])] at hf
      have hid : (if stockCondition pid q x
          then { x with stock := x.stock - q } else x).id = x.id := by
        by_cases hc : stockCondition pid q x = true
        · simp [hc]
        · have hcf : stockCondition pid q x = false := by simpa using hc
          simp [hcf]
      simp only [List.map_cons]
      rw [List.find?_cons]
      simp only [hid, hbf]
      exact ih hnd.2 hf

/-- A conditional decrement on a product without enough stock leaves every
row unchanged. -/
theorem updateMany_fail_eq (l : List Product) (pid : String) (q : Int)
    (p : Product) (hnd : (l.map (fun x => x.id)).Nodup)
    (hf : l.find? (fun x => x.id == pid) = some p) (hlt : p.stock < q) :
    l.map (fun x => if stockCondition pid q x
        then { x with stock := x.stock - q } else x) = l := by
  have hp_mem : p ∈ l := List.mem_of_find?_eq_some hf
  have hp_id := List.find?_some hf
  have hall : ∀ a ∈ l, stockCondition pid q a = false := by
    intro a ha
    by_cases hb : (a.id == pid) = true
    · have hap : a = p := by
        apply List.inj_on_of_nodup_map hnd ha hp_mem
        have h1 : a.id = pid := by simpa using hb
        have h2 : p.id = pid := by simpa using hp_id
        rw [h1, h2]
      subst hap
      have : ¬ q ≤ a.stock := by omega
      simp [stockCondition, this]
    · have hbf : (a.id == pid) = false := by simpa using hb
      simp [stockCondition, hbf]
  have : ∀ a ∈ l, (if stockCondition pid q a
      then { a with stock := a.stock - q } else a) = a := by
    intro a ha
    simp [hall a ha]
  rw [List.map_congr_left this, List.map_id']

/-- The conditional decrement preserves non-negativity of every stock. -/
theorem updateMany_nonneg (db : DB) (pid : String) (q : Int)
    (h : ∀ p ∈ db.products, 0 ≤ p.stock) :
    ∀ p ∈ (updateManyStockDecrement db pid q).1.products, 0 ≤ p.stock := by
  intro p hp
  simp only [updateManyStockDecrement, List.mem_map] at hp
  rcases hp with ⟨x, hx, hxe⟩
  by_cases hc : stockCondition pid q x = true
  · have hq : q ≤ x.stock := by
      have h2 := hc
      simp only [stockCondition, Bool.and_eq_true, decide_eq_true_eq] at h2
      exact h2.2
    simp only [hc, if_true] at hxe
    subst hxe
    simp only
    omega
  · have hcf : stockCondition pid q x = false := by simpa using hc
    simp only [hcf, Bool.false_eq_true, if_false] at hxe
    subst hxe
    exact h x hx

end TvLed

namespace TvLed

/-! ### Structural lemmas about createOrder -/

/-- A `createOrder` call that surfaces an error leaves the database exactly
as it was (the pre-transaction checks are pure reads and the transaction
rolls back). -/
theorem createOrder_error_snd (gen : Nat → String) (newOrderId : String)
    (dto : CreateOrderDto) (db : DB) (e : Err)
    (h : (createOrder gen newOrderId dto db).1 = .error e) :
    (createOrder gen newOrderId dto db).2 = db := by
  unfold createOrder at h ⊢
  cases hid : dtoIdentifier dto with
  | none => rfl
  | some ident =>
    simp only [hid] at h ⊢
    by_cases h1 : (getCart db ident).itemsWithProducts.isEmpty = true
    · simp [h1]
    · have h1f : (getCart db ident).itemsWithProducts.isEmpty = false := by
        simpa using h1
      simp only [h1f, Bool.false_eq_true, if_false] at h ⊢
      by_cases h2 : (validItemsOf (getCart db ident)).isEmpty = true
      · simp [h2]
      · have h2f : (validItemsOf (getCart db ident)).isEmpty = false := by
          simpa using h2
        simp only [h2f, Bool.false_eq_true, if_false] at h ⊢
        cases htx : createOrderTx gen newOrderId dto
            (validItemsOf (getCart db ident)) db with
        | error e2 => simp [htx]
        | ok pr => simp [htx] at h

/-- Inversion of a successful `createOrder`: the collected product reads,
decrements and insert all succeeded, the returned order is the one built
from the snapshots, its reference is the single generated value, and the
final state is the post-insert state with the owner's cart cleared. -/
theorem createOrder_ok_inversion (gen : Nat → String) (newOrderId : String)
    (dto : CreateOrderDto) (db : DB) (o : Order) (db' : DB)
    (h : createOrder gen newOrderId dto db = (.ok o, db')) :
    ∃ ident productUpdates db1,
      dtoIdentifier dto = some ident ∧
      collectProductUpdates db (validItemsOf (getCart db ident)) =
        .ok productUpdates ∧
      applyStockDecrements db productUpdates = .ok db1 ∧
      o = mkOrder newOrderId (gen 0) dto (totalOf productUpdates)
        productUpdates ∧
      db1.orders.any (fun x => x.orderNumber == gen 0) = false ∧
      db' = clearCartFor dto { db1 with orders := db1.orders ++ [o] } := by
  unfold createOrder at h
  cases hid : dtoIdentifier dto with
  | none => simp [hid] at h
  | some ident =>
    simp only [hid] at h
    by_cases h1 : (getCart db ident).itemsWithProducts.isEmpty = true
    · simp [h1] at h
    · have h1f : (getCart db ident).itemsWithProducts.isEmpty = false := by
        simpa using h1
      simp only [h1f, Bool.false_eq_true, if_false] at h
      by_cases h2 : (validItemsOf (getCart db ident)).isEmpty = true
      · simp [h2] at h
      · have h2f : (validItemsOf (getCart db ident)).isEmpty = false := by
          simpa using h2
        simp only [h2f, Bool.false_eq_true, if_false] at h
        cases htx : createOrderTx gen newOrderId dto
            (validItemsOf (getCart db ident)) db with
        | error e2 => simp [htx] at h
        | ok pr =>
          rw [htx] at h
          simp only [Prod.mk.injEq, Except.ok.injEq] at h
          obtain ⟨ho, hdb⟩ := h
          unfold createOrderTx at htx
          split at htx
          · exact absurd htx (by simp)
          next productUpdates hcol =>
            split at htx
            · exact absurd htx (by simp)
            next db1 happ =>
              unfold orderCreate at htx
              split at htx
              · exact absurd htx (by simp)
              next o2 db2 hoc =>
                by_cases hany2 : (db1.orders.any fun e => e.orderNumber ==
                    (mkOrder newOrderId (gen 0) dto (totalOf productUpdates)
                      productUpdates).orderNumber) = true
                · rw [if_pos hany2] at hoc
                  exact absurd hoc (by simp)
                · rw [if_neg hany2] at hoc
                  simp only [Except.ok.injEq, Prod.mk.injEq] at hoc
                  obtain ⟨ho2, hdb2⟩ := hoc
                  simp only [Except.ok.injEq] at htx
                  have hanyf : (db1.orders.any fun x => x.orderNumber == gen 0)
                      = false := by simpa using hany2
                  have hpr1 : o = mkOrder newOrderId (gen 0) dto
                      (totalOf productUpdates) productUpdates := by
                    rw [← ho, ← htx]
                    exact ho2.symm
                  refine ⟨ident, productUpdates, db1, rfl, hcol, happ, hpr1,
                    hanyf, ?_⟩
                  rw [← hdb, ← htx]
                  show clearCartFor dto db2 = _
                  rw [← hdb2, hpr1]

/-- Every snapshot collected in step 1 carries the price of the product as
read from the database, and a quantity not exceeding the read stock. -/
theorem collectProductUpdates_sound (db : DB) (items : List CartItem)
    (pus : List ProductUpdate) (h : collectProductUpdates db items = .ok pus) :
    ∀ pu ∈ pus, ∃ p, findProduct db pu.productId = some p ∧
      pu.price = p.price ∧ pu.quantity ≤ p.stock := by
  induction items generalizing pus with
  | nil =>
    simp only [collectProductUpdates, Except.ok.injEq] at h
    subst h
    simp
  | cons item rest ih =>
    simp only [collectProductUpdates] at h
    cases hfp : findProduct db item.productId with
    | none => rw [hfp] at h; cases h
    | some product =>
      rw [hfp] at h
      by_cases hst : product.stock < item.quantity
      · simp [hst] at h
      · simp only [hst, if_false] at h
        cases hrest : collectProductUpdates db rest with
        | error e2 => rw [hrest] at h; cases h
        | ok pus' =>
          rw [hrest] at h
          simp only [Except.ok.injEq] at h
          subst h
          intro pu hpu
          rcases List.mem_cons.mp hpu with hhead | htail
          · subst hhead
            have hpid : product.id = item.productId := by
              simpa using List.find?_some hfp
            refine ⟨product, ?_, rfl, ?_⟩
            · simpa [hpid] using hfp
            · simp only
              omega
          · exact ih pus' hrest pu htail

/-- Folding addition of `f` over a list starting from `a` is `a` plus the
sum of the mapped list. -/
theorem foldl_add_map_sum {α : Type} (f : α → Int) (l : List α) (a : Int) :
    l.foldl (fun s i => s + f i) a = a + (l.map f).sum := by
  induction l generalizing a with
  | nil => simp
  | cons x rest ih =>
    simp only [List.foldl_cons, List.map_cons, List.sum_cons, ih]
    ring

/-- `totalAmount` equals the sum of the line totals of the created order
items. -/
theorem totalOf_eq_sum (pus : List ProductUpdate) :
    totalOf pus =
      ((pus.map mkOrderItem).map (fun it => it.unitPrice * it.quantity)).sum := by
  rw [totalOf, foldl_add_map_sum, List.map_map, zero_add]
  apply congrArg List.sum
  apply List.map_congr_left
  intro a _
  rfl

/-- Outcome of `m` sequential single-unit conditional decrements against a
product with non-negative stock: exactly `min m stock` of them succeed and
the stock drops to `stock - min m stock`, never below zero. -/
theorem decrementRace_spec (db : DB) (pid : String) (p : Product) (M : Nat)
    (hnd : productIdsNodup db) (hf : findProduct db pid = some p)
    (hnn : 0 ≤ p.stock) :
    (decrementRace pid db M).2 = min M p.stock.toNat ∧
    findProduct (decrementRace pid db M).1 pid =
      some { p with stock := p.stock - ((min M p.stock.toNat : Nat) : Int) } ∧
    productIdsNodup (decrementRace pid db M).1 := by
  have hN : ((p.stock.toNat : Nat) : Int) = p.stock := Int.toNat_of_nonneg hnn
  induction M with
  | zero =>
    refine ⟨by simp [decrementRace], ?_, hnd⟩
    have hrec : ({ p with stock := p.stock - ((min 0 p.stock.toNat : Nat) : Int) } :
        Product) = p := by
      simp
    rw [show decrementRace pid db 0 = (db, 0) from rfl]
    rw [hrec]
    exact hf
  | succ m ih =>
    obtain ⟨ihc, ihf, ihnd⟩ := ih
    have hstep : decrementRace pid db (m + 1) =
        ((updateManyStockDecrement (decrementRace pid db m).1 pid 1).1,
         (decrementRace pid db m).2 +
           (updateManyStockDecrement (decrementRace pid db m).1 pid 1).2) := rfl
    have hcount := updateMany_count (decrementRace pid db m).1.products pid 1
      _ ihnd ihf
    have hfind := updateMany_find (decrementRace pid db m).1.products pid 1
      _ ihnd ihf
    dsimp only at hcount hfind
    have hnd' : productIdsNodup
        (updateManyStockDecrement (decrementRace pid db m).1 pid 1).1 := by
      unfold productIdsNodup
      rw [updateMany_preserves_ids]
      exact ihnd
    by_cases hc : (1 : Int) ≤ p.stock - ((min m p.stock.toNat : Nat) : Int)
    · have hmin : min (m + 1) p.stock.toNat = min m p.stock.toNat + 1 := by
        omega
      refine ⟨?_, ?_, hnd'⟩
      · rw [hstep]
        dsimp only [updateManyStockDecrement]
        rw [hcount, if_pos hc, ihc]
        omega
      · rw [hstep]
        dsimp only [updateManyStockDecrement, findProduct]
        rw [hfind, if_pos hc]
        simp only [Option.some.injEq, Product.mk.injEq, true_and]
        omega
    · refine ⟨?_, ?_, hnd'⟩
      · rw [hstep]
        dsimp only [updateManyStockDecrement]
        rw [hcount, if_neg hc, ihc]
        omega
      · rw [hstep]
        dsimp only [updateManyStockDecrement, findProduct]
        rw [hfind, if_neg hc]
        simp only [Option.some.injEq, Product.mk.injEq, true_and]
        omega

end TvLed

namespace TvLed

/-- C6: for an owner identity whose cart has no line items, or whose line
items all reference deleted products, `createOrder` fails with the
corresponding `BadRequestException` (validation error) and the database —
stock, orders and the cart itself — is exactly as before the call. -/
theorem createOrder_empty_cart_rejected (gen : Nat → String)
    (newOrderId : String) (dto : CreateOrderDto) (db : DB)
    (ident : CartIdentifier) (hident : dtoIdentifier dto = some ident)
    (hempty : (getCart db ident).itemsWithProducts = [] ∨
      ∀ it ∈ (getCart db ident).itemsWithProducts, it.product = none) :
    ((createOrder gen newOrderId dto db).1 =
        .error (.badRequest "Cart is empty") ∨
     (createOrder gen newOrderId dto db).1 =
        .error (.badRequest "Cart contains only deleted products")) ∧
    (createOrder gen newOrderId dto db).2 = db := by
  unfold createOrder
  simp only [hident]
  by_cases h1 : (getCart db ident).itemsWithProducts.isEmpty = true
  · simp [h1]
  · have h1f : (getCart db ident).itemsWithProducts.isEmpty = false := by
      simpa using h1
    rcases hempty with he | hall
    · exact absurd (by rw [List.isEmpty_iff]; exact he) h1
    · have hvalid : validItemsOf (getCart db ident) = [] := by
        unfold validItemsOf
        have hfil : (getCart db ident).itemsWithProducts.filter
            (fun it => it.product.isSome) = [] := by
          rw [List.filter_eq_nil_iff]
          intro a ha
          simp [hall a ha]
        rw [hfil]
        rfl
      have h2 : (validItemsOf (getCart db ident)).isEmpty = true := by
        rw [hvalid]
        rfl
      simp [h1f, h2]

/-- Witness for C6: user u1 owns an empty cart in `c6db`; `createOrder`
returns the validation error and leaves the database untouched. -/
theorem createOrder_empty_cart_rejected_witness :
    ((createOrder (fun _ => "ORD-1") "o1" exDto c6db).1 =
        .error (.badRequest "Cart is empty") ∨
     (createOrder (fun _ => "ORD-1") "o1" exDto c6db).1 =
        .error (.badRequest "Cart contains only deleted products")) ∧
    (createOrder (fun _ => "ORD-1") "o1" exDto c6db).2 = c6db :=
  createOrder_empty_cart_rejected (fun _ => "ORD-1") "o1" exDto c6db
    (CartIdentifier.mk (some "u1") none) (by rfl) (Or.inl (by rfl))

/-- C4: for every order returned by `createOrder`, `totalAmount` is the sum
of `unitPrice * quantity` over its order items, each item's `totalPrice`
snapshot equals `unitPrice * quantity`, each `unitPrice` is the price of
the product as read inside the transaction, and a later product update
(price change included) leaves the stored orders — hence `totalAmount` and
every `totalPrice` — unchanged. -/
theorem order_total_equals_sum_of_snapshots (gen : Nat → String)
    (newOrderId : String) (dto : CreateOrderDto) (db : DB) (o : Order)
    (db' : DB) (h : createOrder gen newOrderId dto db = (.ok o, db')) :
    o.totalAmount =
      (o.orderItems.map (fun it => it.unitPrice * it.quantity)).sum ∧
    (∀ it ∈ o.orderItems, it.totalPrice = it.unitPrice * it.quantity) ∧
    (∀ it ∈ o.orderItems, ∃ p, findProduct db it.productId = some p ∧
        it.unitPrice = p.price) ∧
    (∀ pid udto r, updateProduct db' pid udto = .ok r →
        r.2.orders = db'.orders) := by
  obtain ⟨ident, pus, db1, hid, hcol, happ, ho, hany, hdb⟩ :=
    createOrder_ok_inversion gen newOrderId dto db o db' h
  have hoi : o.orderItems = pus.map mkOrderItem := by rw [ho]; rfl
  have hot : o.totalAmount = totalOf pus := by rw [ho]; rfl
  refine ⟨?_, ?_, ?_, ?_⟩
  · rw [hot, hoi]
    exact totalOf_eq_sum pus
  · intro it hit
    rw [hoi] at hit
    rcases List.mem_map.mp hit with ⟨pu, _, he⟩
    subst he
    rfl
  · intro it hit
    rw [hoi] at hit
    rcases List.mem_map.mp hit with ⟨pu, hpu, he⟩
    subst he
    obtain ⟨p, hp, hprice, _⟩ :=
      collectProductUpdates_sound db _ pus hcol pu hpu
    exact ⟨p, hp, hprice⟩
  · intro pid udto r hr
    unfold updateProduct at hr
    cases hfp : findProduct db' pid with
    | none => rw [hfp] at hr; cases hr
    | some p =>
      rw [hfp] at hr
      simp only [Except.ok.injEq] at hr
      subst hr
      rfl

/-- Witness for C4 on the concrete run from `exDb`: total 200 equals the
single line total 100 * 2, and a subsequent price change to 999 leaves the
stored order untouched. -/
theorem order_total_equals_sum_of_snapshots_witness :
    exOrder.totalAmount =
      (exOrder.orderItems.map (fun it => it.unitPrice * it.quantity)).sum ∧
    (∀ it ∈ exOrder.orderItems, it.totalPrice = it.unitPrice * it.quantity) ∧
    (∀ pid udto r, updateProduct exDbAfter pid udto = .ok r →
        r.2.orders = exDbAfter.orders) := by
  have h := order_total_equals_sum_of_snapshots (fun _ => "ORD-1") "o1"
    exDto exDb exOrder exDbAfter (by rfl)
  exact ⟨h.1, h.2.1, h.2.2.2⟩

/-- C9 counterexample: the generated reference ORD-5 collides with an
existing order and the very next draw ORD-6 is fresh, yet `createOrder`
fails with the uniqueness-violation error instead of transparently
retrying — so the transaction does fail on the first collision. -/
theorem order_reference_retry_counterexample :
    createOrder c9gen "o2" exDto c9db =
      (.error (Err.uniqueViolation "orderNumber"), c9db) ∧
    c9gen 0 = "ORD-5" ∧ c9gen 1 = "ORD-6" ∧
    (c9db.orders.any (fun o => o.orderNumber == "ORD-5")) = true ∧
    (c9db.orders.any (fun o => o.orderNumber == "ORD-6")) = false :=
  ⟨rfl, rfl, rfl, rfl, rfl⟩

/-- C9 amended: the order reference is generated exactly once per
`createOrder` call — a successful call uses the first draw — and a
uniqueness collision on the reference is never retried: the insert fails
the whole transaction with the unique-violation error, which is surfaced
to the caller with the database left unchanged. -/
theorem order_reference_no_retry :
    (∀ (gen : Nat → String) (newOrderId : String) (dto : CreateOrderDto)
        (items : List CartItem) (db : DB) (pus : List ProductUpdate)
        (db1 : DB),
        collectProductUpdates db items = .ok pus →
        applyStockDecrements db pus = .ok db1 →
        db1.orders.any (fun o => o.orderNumber == gen 0) = true →
        createOrderTx gen newOrderId dto items db =
          .error (.uniqueViolation "orderNumber")) ∧
    (∀ (gen : Nat → String) (newOrderId : String) (dto : CreateOrderDto)
        (db : DB) (o : Order) (db' : DB),
        createOrder gen newOrderId dto db = (.ok o, db') →
        o.orderNumber = gen 0) ∧
    (∀ (gen : Nat → String) (newOrderId : String) (dto : CreateOrderDto)
        (db : DB) (e : Err),
        (createOrder gen newOrderId dto db).1 = .error e →
        (createOrder gen newOrderId dto db).2 = db) := by
  refine ⟨?_, ?_, ?_⟩
  · intro gen newOrderId dto items db pus db1 hcol happ hany
    unfold createOrderTx
    rw [hcol]
    show (match applyStockDecrements db pus with
      | Except.error e => Except.error e
      | Except.ok db1 =>
        match orderCreate db1
            (mkOrder newOrderId (gen 0) dto (totalOf pus) pus) with
        | Except.error e => Except.error e
        | Except.ok (o, db2) => Except.ok (o, clearCartFor dto db2)) =
      Except.error (Err.uniqueViolation "orderNumber")
    rw [happ]
    show (match orderCreate db1
        (mkOrder newOrderId (gen 0) dto (totalOf pus) pus) with
      | Except.error e => Except.error e
      | Except.ok (o, db2) => Except.ok (o, clearCartFor dto db2)) =
      Except.error (Err.uniqueViolation "orderNumber")
    unfold orderCreate
    rw [if_pos (show (db1.orders.any fun e => e.orderNumber ==
      (mkOrder newOrderId (gen 0) dto (totalOf pus) pus).orderNumber) = true
      from hany)]
  · intro gen newOrderId dto db o db' h
    obtain ⟨ident, pus, db1, hid, hcol, happ, ho, hany, hdb⟩ :=
      createOrder_ok_inversion gen newOrderId dto db o db' h
    rw [ho]
    rfl
  · intro gen newOrderId dto db e h
    exact createOrder_error_snd gen newOrderId dto db e h

/-- Witness for C9 amended, applied at the concrete colliding state. -/
theorem order_reference_no_retry_witness :
    createOrderTx c9gen "o2" exDto [CartItem.mk "p1" 1] c9db =
      .error (.uniqueViolation "orderNumber") ∧
    (createOrder c9gen "o2" exDto c9db).2 = c9db := by
  constructor
  · exact order_reference_no_retry.1 c9gen "o2" exDto [CartItem.mk "p1" 1]
      c9db [ProductUpdate.mk "p1" 1 5 100]
      (DB.mk [Product.mk "p1" "TV" 100 4]
        [Cart.mk "c1" (some "u1") none [CartItem.mk "p1" 1]]
        [Order.mk "oX" "ORD-5" (some "u9") none OrderStatus.PENDING
          PaymentMethod.CASH_ON_DELIVERY 7 "Bob" none none "e@b.c" "000"
          (Address.mk "s" "c" "p") (Address.mk "s" "c" "p") []] [])
      (by rfl) (by rfl) (by rfl)
  · exact order_reference_no_retry.2.2 c9gen "o2" exDto c9db
      (Err.uniqueViolation "orderNumber") (by rfl)

/-- C1: the stock decrement of `createOrder` is a conditional write — with
distinct product ids it affects exactly one row when the current stock at
write time still covers the requested quantity, decrementing by exactly
that quantity, and zero rows otherwise, leaving the state untouched; a
zero-row write aborts the transaction with the stock-conflict error
(`BadRequestException`, no retry), any error rolls the whole call back;
stocks never go negative, and `m` racing single-unit purchases against
stock `n ≥ 0` succeed exactly `min m n` times. -/
theorem conditional_stock_decrement_safe :
    (∀ (db : DB) (pid : String) (q : Int) (p : Product),
        productIdsNodup db → findProduct db pid = some p →
        (q ≤ p.stock →
          (updateManyStockDecrement db pid q).2 = 1 ∧
          findProduct (updateManyStockDecrement db pid q).1 pid =
            some { p with stock := p.stock - q }) ∧
        (p.stock < q →
          (updateManyStockDecrement db pid q).2 = 0 ∧
          (updateManyStockDecrement db pid q).1 = db)) ∧
    (∀ (db : DB) (item : ProductUpdate) (rest : List ProductUpdate),
        (updateManyStockDecrement db item.productId item.quantity).2 = 0 →
        applyStockDecrements db (item :: rest) =
          .error (.badRequest ("Stock insufficient for product " ++
            item.productId ++ ". Another purchase may have occurred."))) ∧
    (∀ (gen : Nat → String) (newOrderId : String) (dto : CreateOrderDto)
        (db : DB) (e : Err),
        (createOrder gen newOrderId dto db).1 = .error e →
        (createOrder gen newOrderId dto db).2 = db) ∧
    (∀ (db : DB) (pid : String) (q : Int),
        (∀ p ∈ db.products, 0 ≤ p.stock) →
        ∀ p ∈ (updateManyStockDecrement db pid q).1.products, 0 ≤ p.stock) ∧
    (∀ (db : DB) (pid : String) (p : Product) (m : Nat),
        productIdsNodup db → findProduct db pid = some p → 0 ≤ p.stock →
        (decrementRace pid db m).2 = min m p.stock.toNat ∧
        findProduct (decrementRace pid db m).1 pid =
          some { p with stock :=
            p.stock - ((min m p.stock.toNat : Nat) : Int) }) := by
  refine ⟨?_, ?_, ?_, ?_, ?_⟩
  · intro db pid q p hnd hf
    have hcount := updateMany_count db.products pid q p hnd hf
    have hfind := updateMany_find db.products pid q p hnd hf
    constructor
    · intro hq
      constructor
      · show (db.products.filter (stockCondition pid q)).length = 1
        rw [hcount, if_pos hq]
      · show (db.products.map _).find? _ = _
        rw [hfind, if_pos hq]
    · intro hlt
      have hnq : ¬ q ≤ p.stock := by omega
      constructor
      · show (db.products.filter (stockCondition pid q)).length = 0
        rw [hcount, if_neg hnq]
      · have hmap := updateMany_fail_eq db.products pid q p hnd hf hlt
        show ({ db with products := _ } : DB) = db
        rw [hmap]
  · intro db item rest hzero
    unfold applyStockDecrements
    rw [if_pos (by simpa using hzero)]
  · intro gen newOrderId dto db e h
    exact createOrder_error_snd gen newOrderId dto db e h
  · intro db pid q h
    exact updateMany_nonneg db pid q h
  · intro db pid p m hnd hf hnn
    obtain ⟨h1, h2, _⟩ := decrementRace_spec db pid p m hnd hf hnn
    exact ⟨h1, h2⟩

/-- Witness for C1 at the concrete catalog: decrementing two of five TVs
affects one row leaving three, requesting seven of five affects no row and
changes nothing, and nine racing single-unit purchases on stock five
succeed exactly five times. -/
theorem conditional_stock_decrement_safe_witness :
    ((updateManyStockDecrement exDb "p1" 2).2 = 1 ∧
     findProduct (updateManyStockDecrement exDb "p1" 2).1 "p1" =
       some (Product.mk "p1" "TV" 100 3)) ∧
    ((updateManyStockDecrement exDb "p1" 7).2 = 0 ∧
     (updateManyStockDecrement exDb "p1" 7).1 = exDb) ∧
    ((decrementRace "p1" exDb 9).2 = min 9 ((5 : Int)).toNat) := by
  refine ⟨?_, ?_, ?_⟩
  · exact (conditional_stock_decrement_safe.1 exDb "p1" 2
      (Product.mk "p1" "TV" 100 5) (by unfold productIdsNodup; decide) (by rfl)).1 (by decide)
  · exact (conditional_stock_decrement_safe.1 exDb "p1" 7
      (Product.mk "p1" "TV" 100 5) (by unfold productIdsNodup; decide) (by rfl)).2 (by decide)
  · exact (conditional_stock_decrement_safe.2.2.2.2 exDb "p1"
      (Product.mk "p1" "TV" 100 5) 9 (by unfold productIdsNodup; decide)
      (by rfl) (by decide)).1

end TvLed

namespace TvLed

/-- Payment lookup after `updatePaymentRow`, when the update preserves the
`orderId` key. -/
theorem findPaymentFor_updated (db : DB) (oid : String) (f : Payment → Payment)
    (hf : ∀ p, (p.orderId == oid) = true → ((f p).orderId == oid) = true) :
    findPaymentFor (updatePaymentRow db oid f) oid =
      (findPaymentFor db oid).map f := by
  unfold findPaymentFor updatePaymentRow
  exact find?_map_update db.payments (fun p => p.orderId == oid) f hf

/-- Order lookup after `updateOrderRow`, when the update preserves the `id`
key. -/
theorem findOrderById_updated (db : DB) (oid : String) (f : Order → Order)
    (hf : ∀ o, (o.id == oid) = true → ((f o).id == oid) = true) :
    findOrderById (updateOrderRow db oid f) oid =
      (findOrderById db oid).map f := by
  unfold findOrderById updateOrderRow
  exact find?_map_update db.orders (fun o => o.id == oid) f hf

/-- Reduction of `handlePaymentCallback` once verification resolves to an
existing order with a payment row. -/
theorem handlePaymentCallback_resolved (now : Nat) (fault : Bool)
    (payload : CallbackPayload) (db : DB) (n : String) (order : Order)
    (payment : Payment)
    (hv : (konnectVerifyCallback payload).success = true)
    (hvo : (konnectVerifyCallback payload).orderId = some n)
    (hn : (n == "") = false)
    (ho : findOrderByNumber db n = some order)
    (hp : findPaymentFor db order.id = some payment) :
    handlePaymentCallback now fault payload db =
      (if mapCallbackStatus (konnectVerifyCallback payload).status =
          PaymentStatus.SUCCESS then
        if fault then
          (CallbackResult.mk false none,
           updatePaymentRow db order.id (fun p =>
             { p with status := PaymentStatus.SUCCESS,
                      gatewayResponse := some payload, paidAt := some now }))
        else
          (CallbackResult.mk true (some order.id),
           updateOrderRow
             (updatePaymentRow db order.id (fun p =>
               { p with status := PaymentStatus.SUCCESS,
                        gatewayResponse := some payload,
                        paidAt := some now }))
             order.id (fun o => { o with status := OrderStatus.CONFIRMED }))
      else
        (CallbackResult.mk true (some order.id),
         updatePaymentRow db order.id (fun p =>
           { p with status := PaymentStatus.FAILED,
                    gatewayResponse := some payload, paidAt := none }))) := by
  cases hst : mapCallbackStatus (konnectVerifyCallback payload).status with
  | SUCCESS =>
    simp only [handlePaymentCallback, hv, hvo, jsTruthy, hn, Bool.not_true,
      Bool.not_false, Bool.false_or, Option.getD_some, ho, hp, hst]
    simp
  | PENDING =>
    exact absurd hst (by unfold mapCallbackStatus; split <;> simp)
  | FAILED =>
    simp only [handlePaymentCallback, hv, hvo, jsTruthy, hn, Bool.not_true,
      Bool.not_false, Bool.false_or, Option.getD_some, ho, hp, hst]
    simp

end TvLed

namespace TvLed

/-- Payments are untouched by `updateOrderRow`. -/
theorem findPaymentFor_updateOrderRow (db : DB) (oid : String)
    (f : Order → Order) (oid2 : String) :
    findPaymentFor (updateOrderRow db oid f) oid2 = findPaymentFor db oid2 :=
  rfl

/-- Orders are untouched by `updatePaymentRow`. -/
theorem findOrderById_updatePaymentRow (db : DB) (oid : String)
    (f : Payment → Payment) (oid2 : String) :
    findOrderById (updatePaymentRow db oid f) oid2 = findOrderById db oid2 :=
  rfl

/-- C2 counterexample: the payment of order o1 is already SUCCESS with
`paidAt = 100`; delivering the same valid SUCCESS callback again at time
200 is accepted, but it is not a no-op — `paidAt` is overwritten to 200 and
`gatewayResponse` is replaced, a second side effect on the Payment. -/
theorem callback_idempotency_counterexample :
    findPaymentFor c2db "o1" = some c2payment ∧
    c2payment.status = PaymentStatus.SUCCESS ∧
    c2payment.paidAt = some 100 ∧
    (handlePaymentCallback 200 false c2payload c2db).1.success = true ∧
    findPaymentFor (handlePaymentCallback 200 false c2payload c2db).2 "o1" =
      some { c2payment with paidAt := some 200,
                            gatewayResponse := some c2payload } :=
  ⟨rfl, rfl, rfl, rfl, rfl⟩

/-- C2 amended: a second valid SUCCESS callback for a payment already in
SUCCESS is accepted without error and the status stays SUCCESS, but the
handler re-applies the update rather than skipping it: `paidAt` is
overwritten with the new delivery time, `gatewayResponse` with the new
payload, and the order is set CONFIRMED again. -/
theorem callback_second_success_reapplied (now : Nat)
    (payload : CallbackPayload) (db : DB) (n : String) (order : Order)
    (payment : Payment)
    (hv : (konnectVerifyCallback payload).success = true)
    (hvo : (konnectVerifyCallback payload).orderId = some n)
    (hn : (n == "") = false)
    (ho : findOrderByNumber db n = some order)
    (hp : findPaymentFor db order.id = some payment)
    (hoid : findOrderById db order.id = some order)
    (hps : payment.status = PaymentStatus.SUCCESS)
    (hst : mapCallbackStatus (konnectVerifyCallback payload).status =
      PaymentStatus.SUCCESS) :
    (handlePaymentCallback now false payload db).1 =
      CallbackResult.mk true (some order.id) ∧
    findPaymentFor (handlePaymentCallback now false payload db).2 order.id =
      some { payment with status := PaymentStatus.SUCCESS,
                          gatewayResponse := some payload,
                          paidAt := some now } ∧
    findOrderById (handlePaymentCallback now false payload db).2 order.id =
      some { order with status := OrderStatus.CONFIRMED } := by
  rw [handlePaymentCallback_resolved now false payload db n order payment
    hv hvo hn ho hp, if_pos hst, if_neg (by simp)]
  refine ⟨rfl, ?_, ?_⟩
  · dsimp only
    rw [findPaymentFor_updateOrderRow,
      findPaymentFor_updated db order.id
        (fun p => { p with status := PaymentStatus.SUCCESS, gatewayResponse := some payload, paidAt := some now })
        (fun p h => h), hp]
    rfl
  · dsimp only
    rw [findOrderById_updated _ order.id
        (fun o => { o with status := OrderStatus.CONFIRMED }) (fun o h => h),
      findOrderById_updatePaymentRow, hoid]
    rfl

/-- Witness for C2 amended at the concrete settled state. -/
theorem callback_second_success_reapplied_witness :
    (handlePaymentCallback 200 false c2payload c2db).1 =
      CallbackResult.mk true (some "o1") ∧
    findPaymentFor (handlePaymentCallback 200 false c2payload c2db).2 "o1" =
      some { c2payment with status := PaymentStatus.SUCCESS,
                            gatewayResponse := some c2payload,
                            paidAt := some 200 } ∧
    findOrderById (handlePaymentCallback 200 false c2payload c2db).2 "o1" =
      some { c2order with status := OrderStatus.CONFIRMED } :=
  callback_second_success_reapplied 200 c2payload c2db "ORD-1" c2order
    c2payment (by rfl) (by rfl) (by rfl) (by rfl) (by rfl) (by rfl) (by rfl)
    (by rfl)

/-- C3 counterexample: the payment of order o1 is in the terminal SUCCESS
state, yet a later callback carrying a failed status is processed
successfully and silently flips the payment to FAILED, clearing
`paidAt` — the terminal state is left and nothing is rejected. -/
theorem terminal_payment_state_counterexample :
    c3payment.status = PaymentStatus.SUCCESS ∧
    (handlePaymentCallback 300 false c3payload c3db).1.success = true ∧
    findPaymentFor (handlePaymentCallback 300 false c3payload c3db).2 "o1" =
      some { c3payment with status := PaymentStatus.FAILED,
                            gatewayResponse := some c3payload,
                            paidAt := none } :=
  ⟨rfl, rfl, rfl⟩

/-- C3 amended: no transition guard exists anywhere — the callback handler
unconditionally writes the status mapped from the payload, whatever the
payment's current (even terminal) status, so a FAILED-mapped callback moves
a SUCCESS payment to FAILED and clears `paidAt`; and `updateOrderStatus`
writes any requested order status with no transition check. -/
theorem status_transitions_not_guarded :
    (∀ (now : Nat) (payload : CallbackPayload) (db : DB) (n : String)
        (order : Order) (payment : Payment),
        (konnectVerifyCallback payload).success = true →
        (konnectVerifyCallback payload).orderId = some n →
        (n == "") = false →
        findOrderByNumber db n = some order →
        findPaymentFor db order.id = some payment →
        mapCallbackStatus (konnectVerifyCallback payload).status =
          PaymentStatus.FAILED →
        (handlePaymentCallback now false payload db).1 =
          CallbackResult.mk true (some order.id) ∧
        findPaymentFor (handlePaymentCallback now false payload db).2
            order.id =
          some { payment with status := PaymentStatus.FAILED,
                              gatewayResponse := some payload,
                              paidAt := none }) ∧
    (∀ (db : DB) (orderId : String) (st : OrderStatus) (order : Order),
        findOrderById db orderId = some order →
        updateOrderStatus db orderId st =
          .ok ({ order with status := st },
            { db with orders := db.orders.map (fun e =>
                if e.id == orderId then { e with status := st } else e) })) := by
  constructor
  · intro now payload db n order payment hv hvo hn ho hp hst
    rw [handlePaymentCallback_resolved now false payload db n order payment
      hv hvo hn ho hp, if_neg (by rw [hst]; simp)]
    refine ⟨rfl, ?_⟩
    dsimp only
    rw [findPaymentFor_updated db order.id
        (fun p => { p with status := PaymentStatus.FAILED, gatewayResponse := some payload, paidAt := none })
        (fun p h => h), hp]
    rfl
  · intro db orderId st order hfind
    unfold updateOrderStatus
    rw [hfind]

/-- Witness for C3 amended: the concrete SUCCESS payment is flipped to
FAILED by a later failed callback, and `updateOrderStatus` moves the
CONFIRMED order wherever asked. -/
theorem status_transitions_not_guarded_witness :
    ((handlePaymentCallback 300 false c3payload c3db).1 =
      CallbackResult.mk true (some "o1") ∧
     findPaymentFor (handlePaymentCallback 300 false c3payload c3db).2 "o1" =
       some { c3payment with status := PaymentStatus.FAILED,
                             gatewayResponse := some c3payload,
                             paidAt := none }) ∧
    updateOrderStatus c3db "o1" OrderStatus.CANCELLED =
      .ok ({ c3order with status := OrderStatus.CANCELLED },
        { c3db with orders := c3db.orders.map (fun e =>
            if e.id == "o1" then { e with status := OrderStatus.CANCELLED }
            else e) }) :=
  ⟨status_transitions_not_guarded.1 300 c3payload c3db "ORD-1" c3order
      c3payment (by rfl) (by rfl) (by rfl) (by rfl) (by rfl) (by rfl),
   status_transitions_not_guarded.2 c3db "o1" OrderStatus.CANCELLED c3order
      (by rfl)⟩

/-- C5 counterexample: a reachable state in which the handler failed
between its two writes — the Payment was committed as SUCCESS (paidAt set)
while the Order is still PENDING, and the handler reported failure. -/
theorem callback_atomicity_counterexample :
    (handlePaymentCallback 400 true c5payload c5db).1.success = false ∧
    findPaymentFor (handlePaymentCallback 400 true c5payload c5db).2 "o1" =
      some { c5payment with status := PaymentStatus.SUCCESS,
                            gatewayResponse := some c5payload,
                            paidAt := some 400 } ∧
    findOrderById (handlePaymentCallback 400 true c5payload c5db).2 "o1" =
      some c5order ∧
    c5order.status = OrderStatus.PENDING :=
  ⟨rfl, rfl, rfl, rfl⟩

/-- C5 amended: the Payment update and the Order update of
`handlePaymentCallback` are two separate sequential writes with no
surrounding transaction: when nothing fails both take effect, but when the
Order write fails after the Payment write the Payment stays SUCCESS while
the Order remains untouched (PENDING) and the handler merely reports
failure. -/
theorem callback_writes_not_atomic (now : Nat) (payload : CallbackPayload)
    (db : DB) (n : String) (order : Order) (payment : Payment)
    (hv : (konnectVerifyCallback payload).success = true)
    (hvo : (konnectVerifyCallback payload).orderId = some n)
    (hn : (n == "") = false)
    (ho : findOrderByNumber db n = some order)
    (hp : findPaymentFor db order.id = some payment)
    (hoid : findOrderById db order.id = some order)
    (hst : mapCallbackStatus (konnectVerifyCallback payload).status =
      PaymentStatus.SUCCESS) :
    ((handlePaymentCallback now false payload db).1.success = true ∧
     findPaymentFor (handlePaymentCallback now false payload db).2 order.id =
       some { payment with status := PaymentStatus.SUCCESS,
                           gatewayResponse := some payload,
                           paidAt := some now } ∧
     findOrderById (handlePaymentCallback now false payload db).2 order.id =
       some { order with status := OrderStatus.CONFIRMED }) ∧
    ((handlePaymentCallback now true payload db).1.success = false ∧
     findPaymentFor (handlePaymentCallback now true payload db).2 order.id =
       some { payment with status := PaymentStatus.SUCCESS,
                           gatewayResponse := some payload,
                           paidAt := some now } ∧
     findOrderById (handlePaymentCallback now true payload db).2 order.id =
       some order) := by
  constructor
  · rw [handlePaymentCallback_resolved now false payload db n order payment
      hv hvo hn ho hp, if_pos hst, if_neg (by simp)]
    refine ⟨rfl, ?_, ?_⟩
    · dsimp only
      rw [findPaymentFor_updateOrderRow,
        findPaymentFor_updated db order.id
          (fun p => { p with status := PaymentStatus.SUCCESS, gatewayResponse := some payload, paidAt := some now })
          (fun p h => h), hp]
      rfl
    · dsimp only
      rw [findOrderById_updated _ order.id
          (fun o => { o with status := OrderStatus.CONFIRMED })
          (fun o h => h),
        findOrderById_updatePaymentRow, hoid]
      rfl
  · rw [handlePaymentCallback_resolved now true payload db n order payment
      hv hvo hn ho hp, if_pos hst, if_pos rfl]
    refine ⟨rfl, ?_, ?_⟩
    · dsimp only
      rw [findPaymentFor_updated db order.id
          (fun p => { p with status := PaymentStatus.SUCCESS, gatewayResponse := some payload, paidAt := some now })
          (fun p h => h), hp]
      rfl
    · dsimp only
      rw [findOrderById_updatePaymentRow]
      exact hoid

/-- Witness for C5 amended at the concrete pending order. -/
theorem callback_writes_not_atomic_witness :
    ((handlePaymentCallback 400 false c5payload c5db).1.success = true ∧
     findPaymentFor (handlePaymentCallback 400 false c5payload c5db).2 "o1" =
       some { c5payment with status := PaymentStatus.SUCCESS,
                             gatewayResponse := some c5payload,
                             paidAt := some 400 } ∧
     findOrderById (handlePaymentCallback 400 false c5payload c5db).2 "o1" =
       some { c5order with status := OrderStatus.CONFIRMED }) ∧
    ((handlePaymentCallback 400 true c5payload c5db).1.success = false ∧
     findPaymentFor (handlePaymentCallback 400 true c5payload c5db).2 "o1" =
       some { c5payment with status := PaymentStatus.SUCCESS,
                             gatewayResponse := some c5payload,
                             paidAt := some 400 } ∧
     findOrderById (handlePaymentCallback 400 true c5payload c5db).2 "o1" =
       some c5order) := by
  have h := callback_writes_not_atomic 400 c5payload c5db "ORD-1" c5order
    c5payment (by rfl) (by rfl) (by rfl) (by rfl) (by rfl) (by rfl) (by rfl)
  exact ⟨⟨h.1.1, h.1.2.1, h.1.2.2⟩, ⟨h.2.1, h.2.2.1, h.2.2.2⟩⟩

end TvLed
